import Mathlib

/-!
Shallow embedding of four MicroPython sensor drivers
(`aht.py`, `bme280.py`, `dht.py`, `tsl2591.py`) together with proofs about
the claims of their specification.

Modelling conventions:
* Python arbitrary-precision integers are `Int` (or `Nat` when the source
  value is provably non-negative, e.g. values assembled from register bytes).
* Python `x >> n` on a possibly negative integer is floor division by `2 ^ n`
  (`Int.fdiv`), `x << n` is multiplication by `2 ^ n`, `x // y` is `Int.fdiv`.
* Python floats produced by `/` and `round(x, 2)` are idealised as exact
  rationals with round-half-to-even to two decimal places, matching the
  spec's description of physical values as decimal numbers.
* An I2C device is a snapshot of its register file (`Nat → Nat`, one byte
  per register address as seen by the read commands of each driver).
* A Python function that can raise for some inputs returns an `Option`.
-/

/-! ## Common helpers -/

/-- `int.from_bytes(bs, "little")`: little-endian byte assembly. -/
def fromBytesLE (bs : List Nat) : Nat :=
  bs.foldr (fun b acc => b + 256 * acc) 0

/-- `int.from_bytes(bs, "big")`: big-endian byte assembly. -/
def fromBytesBE (bs : List Nat) : Nat :=
  bs.foldl (fun acc b => 256 * acc + b) 0

/-- Python `a << n` on integers. -/
def pyShl (a : Int) (n : Nat) : Int := a * 2 ^ n

/-- Python `a >> n` on integers (arithmetic shift = floor division). -/
def pyShr (a : Int) (n : Nat) : Int := Int.fdiv a (2 ^ n)

/-- Floor of a rational as an integer, computably (`q.num` floor-divided by
`q.den`); agrees with `Int.floor` on `ℚ`. -/
def ratFloorZ (q : ℚ) : ℤ := Int.fdiv q.num (q.den : ℤ)

/-- Round a rational to the nearest integer, ties to even
(the rounding mode of Python's `round`). -/
def roundHalfEven (q : ℚ) : ℤ :=
  let n := ratFloorZ q
  if q - n < 1 / 2 then n
  else if 1 / 2 < q - n then n + 1
  else if n % 2 = 0 then n else n + 1

/-- Python `round(q, 2)`: round to two decimal places, ties to even. -/
def pyRound2 (q : ℚ) : ℚ := (roundHalfEven (q * 100) : ℚ) / 100

theorem ratFloorZ_eq_floor (q : ℚ) : ratFloorZ q = ⌊q⌋ := by
  rw [ratFloorZ, Int.fdiv_eq_ediv _ (by exact_mod_cast q.den_pos.le), Rat.floor_def]

theorem ratFloorZ_intCast (n : ℤ) : ratFloorZ (n : ℚ) = n := by
  rw [ratFloorZ_eq_floor, Int.floor_intCast]

theorem roundHalfEven_intCast (n : ℤ) : roundHalfEven (n : ℚ) = n := by
  unfold roundHalfEven
  rw [ratFloorZ_intCast]
  norm_num

/-- `round(x, 2)` is the identity on integers. -/
theorem pyRound2_intCast (n : ℤ) : pyRound2 (n : ℚ) = n := by
  unfold pyRound2
  rw [show ((n : ℚ) * 100) = ((n * 100 : ℤ) : ℚ) by push_cast; ring,
    roundHalfEven_intCast]
  push_cast
  field_simp

/-- `round(x, 2)` is the identity on integer multiples of `1/10`. -/
theorem pyRound2_div_ten (n : ℤ) : pyRound2 ((n : ℚ) / 10) = (n : ℚ) / 10 := by
  unfold pyRound2
  rw [show ((n : ℚ) / 10 * 100) = ((n * 10 : ℤ) : ℚ) by push_cast; ring,
    roundHalfEven_intCast]
  push_cast
  ring

/-! ## AHT driver (`aht.py`) -/

/-- One I2C transaction of the AHT driver: a raw write of the given bytes or
a raw read of the given number of bytes. -/
inductive AHTTx where
  | wr (data : List Nat)
  | rd (len : Nat)
deriving DecidableEq

/-- Device-side snapshot consumed by one `AHT.get_measure_results` call:
the status byte answered to the first `0x71` poll and the 7-byte measurement
response answered to the second one. -/
structure AHTState where
  status : Nat
  resp : Fin 7 → Nat

/-- The 5-tuple returned by `AHT.get_measure_results`
(`t_raw, round(t_val, 2), h_raw, round(h_val, 2), isvalid`); `none` models
Python `None`. -/
structure AHTResult where
  t_raw : Option Nat
  t_val : Option ℚ
  h_raw : Option Nat
  h_val : Option ℚ
  valid : Option Bool
deriving DecidableEq

/-- One iteration of the inner loop of `AHT._check_crc`
(`crc = (crc << 1) ^ 0x31 if crc & 0x80 else crc << 1`), without any
byte-width truncation, exactly as in the source. -/
def ahtCrcStep (crc : Nat) : Nat :=
  if crc &&& 0x80 ≠ 0 then (crc <<< 1) ^^^ 0x31 else crc <<< 1

/-- Processing of one data byte in `AHT._check_crc`: `crc ^= byte` followed
by eight inner-loop iterations. -/
def ahtCrcByte (crc b : Nat) : Nat := ahtCrcStep^[8] (crc ^^^ b)

/-- `AHT._check_crc(data, checksum)`: run the loop from initial value `0xFF`,
truncate to a byte at the end, and compare with the received checksum. -/
def aht_check_crc (data : List Nat) (checksum : Nat) : Bool :=
  checksum == (data.foldl ahtCrcByte 0xFF) &&& 0xFF

/-- Reference CRC-8 step, modelled from the spec parameters: polynomial
`0x31`, MSB-first, no reflection, state truncated to 8 bits each step. -/
def crc8Step (crc : Nat) : Nat :=
  (if crc &&& 0x80 ≠ 0 then (crc <<< 1) ^^^ 0x31 else crc <<< 1) &&& 0xFF

/-- Reference CRC-8 of a byte list, modelled from the spec parameters:
initial value `0xFF`, per byte `crc ^= b` then eight MSB-first steps. -/
def crc8Ref (data : List Nat) : Nat :=
  data.foldl (fun c b => crc8Step^[8] (c ^^^ b)) 0xFF

/-- `AHT.get_measure_results(self)` on a device snapshot, paired with the
list of I2C transactions the call performs. -/
def aht_get_measure_results (s : AHTState) : AHTResult × List AHTTx :=
  if s.status &&& 0x80 ≠ 0 then
    (⟨none, none, none, none, none⟩, [AHTTx.wr [0x71], AHTTx.rd 1])
  else
    let r := s.resp
    let h_raw : Nat := fromBytesBE [r 1, r 2, r 3] >>> 4
    let h_val : ℚ := ((100 * h_raw : Nat) : ℚ) / 0x100000
    let t_raw : Nat := fromBytesBE [r 3, r 4, r 5] &&& 0xFFFFF
    let t_val : ℚ := ((200 * t_raw : Nat) : ℚ) / 0x100000 - 50
    let isvalid := aht_check_crc [r 0, r 1, r 2, r 3, r 4, r 5] (r 6)
    (⟨some t_raw, some (pyRound2 t_val), some h_raw, some (pyRound2 h_val),
      some isvalid⟩,
     [AHTTx.wr [0x71], AHTTx.rd 1, AHTTx.wr [0x71], AHTTx.rd 7])

/-! ## CRC equivalence (claim C3) -/

theorem and255_eq_mod (x : Nat) : x &&& 0xFF = x % 256 := by
  have h := Nat.and_pow_two_sub_one_eq_mod x 8
  norm_num at h
  exact h

theorem ahtCrcStep_and (c : Nat) :
    ahtCrcStep c &&& 0xFF = crc8Step (c &&& 0xFF) := by
  unfold ahtCrcStep crc8Step
  rw [Nat.and_assoc, show (0xFF &&& 0x80 : Nat) = 0x80 from by decide]
  by_cases h : c &&& 0x80 ≠ 0
  · simp only [if_pos h]
    rw [Nat.and_xor_distrib_right, Nat.and_xor_distrib_right]
    congr 1
    rw [Nat.shiftLeft_eq, Nat.shiftLeft_eq, and255_eq_mod, and255_eq_mod,
      and255_eq_mod]
    omega
  · simp only [if_neg h]
    rw [Nat.shiftLeft_eq, Nat.shiftLeft_eq, and255_eq_mod, and255_eq_mod,
      and255_eq_mod]
    omega

theorem ahtCrcStep_iterate_and (n c : Nat) :
    (ahtCrcStep^[n] c) &&& 0xFF = crc8Step^[n] (c &&& 0xFF) := by
  induction n generalizing c with
  | zero => rfl
  | succ n ih =>
      rw [Function.iterate_succ_apply, Function.iterate_succ_apply, ih,
        ahtCrcStep_and]

theorem ahtCrcByte_and (c b : Nat) (hb : b < 256) :
    (ahtCrcByte c b) &&& 0xFF = crc8Step^[8] ((c &&& 0xFF) ^^^ b) := by
  unfold ahtCrcByte
  rw [ahtCrcStep_iterate_and]
  congr 1
  rw [Nat.and_xor_distrib_right]
  congr 1
  rw [and255_eq_mod, Nat.mod_eq_of_lt hb]

theorem ahtCrcFold_and (data : List Nat) (hdata : ∀ b ∈ data, b < 256)
    (c : Nat) :
    (data.foldl ahtCrcByte c) &&& 0xFF =
      data.foldl (fun c b => crc8Step^[8] (c ^^^ b)) (c &&& 0xFF) := by
  induction data generalizing c with
  | nil => rfl
  | cons b t ih =>
      simp only [List.foldl_cons]
      rw [ih (fun x hx => hdata x (List.mem_cons_of_mem _ hx)),
        ahtCrcByte_and c b (hdata b (List.mem_cons_self _ _))]

/-- Claim C3: `AHT._check_crc(data, c)` succeeds exactly when `c` is the
reference CRC-8 of `data` (polynomial `0x31`, initial value `0xFF`,
MSB-first, no reflection). -/
theorem aht_check_crc_iff_crc8Ref (data : List Nat) (c : Nat)
    (hdata : ∀ b ∈ data, b < 256) :
    aht_check_crc data c = true ↔ c = crc8Ref data := by
  unfold aht_check_crc crc8Ref
  rw [ahtCrcFold_and data hdata 0xFF,
    show (0xFF &&& 0xFF : Nat) = 0xFF from by decide]
  exact beq_iff_eq

/-- Witness for C3 at the standard nine-byte check vector, whose reference
CRC-8 under these parameters is `0xF7`. -/
theorem aht_check_crc_iff_crc8Ref_witness :
    (∀ b ∈ [0x31, 0x32, 0x33, 0x34, 0x35, 0x36, 0x37, 0x38, 0x39],
      b < 256) ∧
    (aht_check_crc [0x31, 0x32, 0x33, 0x34, 0x35, 0x36, 0x37, 0x38, 0x39]
        0xF7 = true ↔
      0xF7 = crc8Ref [0x31, 0x32, 0x33, 0x34, 0x35, 0x36, 0x37, 0x38, 0x39]) :=
  ⟨by decide, aht_check_crc_iff_crc8Ref _ _ (by decide)⟩

/-! ## AHT decoding (claim C4) -/

theorem fromBytesBE_three (a b c : Nat) :
    fromBytesBE [a, b, c] = 65536 * a + 256 * b + c := by
  simp only [fromBytesBE, List.foldl_cons, List.foldl_nil]
  ring

theorem and_fffff_eq_mod (x : Nat) : x &&& 0xFFFFF = x % 2 ^ 20 := by
  have h := Nat.and_pow_two_sub_one_eq_mod x 20
  norm_num at h
  norm_num
  exact h

/-- Claim C4: on a non-busy 7-byte response the humidity raw code is the top
20 bits of bytes 1–3 (big-endian), the temperature raw code is the bottom
20 bits of bytes 3–5 (big-endian), the returned values follow
`100 * h / 2^20` and `200 * t / 2^20 - 50` rounded to two decimals, and the
formulas send the code `0x100000` to exactly `100.0` and `150.0`. -/
theorem aht_decode_formulas (s : AHTState) (h : s.status &&& 0x80 = 0) :
    (aht_get_measure_results s).1 =
      ⟨some ((65536 * s.resp 3 + 256 * s.resp 4 + s.resp 5) % 2 ^ 20),
       some (pyRound2
        ((200 * (((65536 * s.resp 3 + 256 * s.resp 4 + s.resp 5) % 2 ^ 20 :
          Nat)) : ℚ) / 2 ^ 20 - 50)),
       some ((65536 * s.resp 1 + 256 * s.resp 2 + s.resp 3) / 2 ^ 4),
       some (pyRound2
        ((100 * (((65536 * s.resp 1 + 256 * s.resp 2 + s.resp 3) / 2 ^ 4 :
          Nat)) : ℚ) / 2 ^ 20)),
       some (aht_check_crc
        [s.resp 0, s.resp 1, s.resp 2, s.resp 3, s.resp 4, s.resp 5]
        (s.resp 6))⟩ ∧
    pyRound2 (100 * (0x100000 : ℚ) / 2 ^ 20) = 100 ∧
    pyRound2 (200 * (0x100000 : ℚ) / 2 ^ 20 - 50) = 150 := by
  refine ⟨?_, ?_, ?_⟩
  · unfold aht_get_measure_results
    rw [if_neg (fun hc => hc h)]
    simp only [fromBytesBE_three, and_fffff_eq_mod,
      Nat.shiftRight_eq_div_pow]
    norm_num
  · rw [show (100 * (0x100000 : ℚ) / 2 ^ 20) = ((100 : ℤ) : ℚ) by norm_num,
      pyRound2_intCast]
    norm_num
  · rw [show (200 * (0x100000 : ℚ) / 2 ^ 20 - 50) = ((150 : ℤ) : ℚ) by
      norm_num, pyRound2_intCast]
    norm_num

/-- The all-zero AHT snapshot (status byte 0, all response bytes 0). -/
def ahtS0 : AHTState := ⟨0, fun _ => 0⟩

/-- Witness for C4 at the all-zero snapshot. -/
theorem aht_decode_formulas_witness :
    ahtS0.status &&& 0x80 = 0 ∧
    ((aht_get_measure_results ahtS0).1 =
      ⟨some ((65536 * ahtS0.resp 3 + 256 * ahtS0.resp 4 + ahtS0.resp 5) %
        2 ^ 20),
       some (pyRound2
        ((200 * (((65536 * ahtS0.resp 3 + 256 * ahtS0.resp 4 + ahtS0.resp 5) %
          2 ^ 20 : Nat)) : ℚ) / 2 ^ 20 - 50)),
       some ((65536 * ahtS0.resp 1 + 256 * ahtS0.resp 2 + ahtS0.resp 3) /
        2 ^ 4),
       some (pyRound2
        ((100 * (((65536 * ahtS0.resp 1 + 256 * ahtS0.resp 2 + ahtS0.resp 3) /
          2 ^ 4 : Nat)) : ℚ) / 2 ^ 20)),
       some (aht_check_crc
        [ahtS0.resp 0, ahtS0.resp 1, ahtS0.resp 2, ahtS0.resp 3, ahtS0.resp 4,
         ahtS0.resp 5] (ahtS0.resp 6))⟩ ∧
     pyRound2 (100 * (0x100000 : ℚ) / 2 ^ 20) = 100 ∧
     pyRound2 (200 * (0x100000 : ℚ) / 2 ^ 20 - 50) = 150) :=
  ⟨rfl, aht_decode_formulas ahtS0 rfl⟩

/-! ## BME280 driver (`bme280.py`) -/

/-- The calibration attributes `self.dig_*` of a `BME280` instance.  The
fields are `Int` so that the compensation chain below can be stated for
arbitrary integer attribute values; `bme_get_compensation_params` shows the
values the constructor actually stores are the (non-negative) register
decodings. -/
structure BMEParams where
  dig_T1 : Int
  dig_T2 : Int
  dig_T3 : Int
  dig_P1 : Int
  dig_P2 : Int
  dig_P3 : Int
  dig_P4 : Int
  dig_P5 : Int
  dig_P6 : Int
  dig_P7 : Int
  dig_P8 : Int
  dig_P9 : Int
  dig_H1 : Int
  dig_H2 : Int
  dig_H3 : Int
  dig_H4 : Int
  dig_H5 : Int
  dig_H6 : Int
deriving DecidableEq

/-- `BME280._read(addr, len, "little")`: read `len` consecutive register
bytes starting at `addr` and assemble them little-endian. -/
def bmeReadLE (regs : Nat → Nat) (addr len : Nat) : Nat :=
  fromBytesLE ((List.range len).map fun i => regs (addr + i))

/-- `BME280._read(addr, len)` with the default `byteorder="big"`. -/
def bmeReadBE (regs : Nat → Nat) (addr len : Nat) : Nat :=
  fromBytesBE ((List.range len).map fun i => regs (addr + i))

/-- `BME280._get_compensation_params(self)` applied to a register-file
snapshot, returning the attribute record stored at construction (the
constructor calls it exactly once). -/
def bme_get_compensation_params (regs : Nat → Nat) : BMEParams :=
  let E5 := bmeReadBE regs 0xE5 1
  { dig_T1 := bmeReadLE regs 0x88 2
    dig_T2 := bmeReadLE regs 0x8A 2
    dig_T3 := bmeReadLE regs 0x8C 2
    dig_P1 := bmeReadLE regs 0x8E 2
    dig_P2 := bmeReadLE regs 0x90 2
    dig_P3 := bmeReadLE regs 0x92 2
    dig_P4 := bmeReadLE regs 0x94 2
    dig_P5 := bmeReadLE regs 0x96 2
    dig_P6 := bmeReadLE regs 0x98 2
    dig_P7 := bmeReadLE regs 0x9A 2
    dig_P8 := bmeReadLE regs 0x9C 2
    dig_P9 := bmeReadLE regs 0x9E 2
    dig_H1 := bmeReadBE regs 0xA1 1
    dig_H2 := bmeReadLE regs 0xE1 2
    dig_H3 := bmeReadBE regs 0xE3 1
    dig_H4 := (bmeReadBE regs 0xE4 1) <<< 4 ||| (E5 &&& 0x0F)
    dig_H5 := ((E5 >>> 4) <<< 8) ||| bmeReadBE regs 0xE6 1
    dig_H6 := bmeReadBE regs 0xE7 1 }

/-- The fine-temperature intermediate `t_fine` of
`BME280.get_measure_results` (`var1 + var2` computed from `dig_T1..T3`). -/
def bmeTFine (p : BMEParams) (t_raw : Int) : Int :=
  let var1 := pyShr ((pyShr t_raw 3 - pyShl p.dig_T1 1) * p.dig_T2) 11
  let var2 := pyShr (pyShr ((pyShr t_raw 4 - p.dig_T1) ^ 2) 12 * p.dig_T3) 14
  var1 + var2

/-- The final humidity intermediate `var1` of `BME280.get_measure_results`
(the value tested against the `[0, 419430400]` range). -/
def bmeHVar1 (p : BMEParams) (t_fine h_raw : Int) : Int :=
  let var1 := t_fine - 76800
  let var1b :=
    pyShr (pyShl h_raw 14 - pyShl p.dig_H4 20 - p.dig_H5 * var1 + 16384) 15 *
      (pyShr
        ((pyShr
            (pyShr (var1 * p.dig_H6) 10 *
              (pyShr (var1 * p.dig_H3) 11 + 32768)) 10 + 2097152) *
          p.dig_H2 + 8192) 14)
  var1b - pyShr (pyShr (pyShr var1b 15 ^ 2) 7 * p.dig_H1) 4

/-- The humidity branch of `BME280.get_measure_results`: `None` when the
intermediate leaves `[0, 419430400]`, otherwise `round((var1 >> 12) / 1024,
2)`. -/
def bmeHumidity (p : BMEParams) (t_fine h_raw : Int) : Option ℚ :=
  let v := bmeHVar1 p t_fine h_raw
  if v < 0 ∨ v > 419430400 then none
  else some (pyRound2 ((pyShr v 12 : ℚ) / 1024))

/-- The stage-1 pressure divisor `var1` of `BME280.get_measure_results`
(the value guarded against zero before the division). -/
def bmePVar1 (p : BMEParams) (t_fine : Int) : Int :=
  let var1 := t_fine - 128000
  let var1b := pyShr (var1 * var1 * p.dig_P3) 8 + pyShl (var1 * p.dig_P2) 12
  pyShr ((pyShl 1 47 + var1b) * p.dig_P1) 33

/-- The pressure intermediate `var2` of `BME280.get_measure_results`. -/
def bmePVar2 (p : BMEParams) (t_fine : Int) : Int :=
  let var1 := t_fine - 128000
  var1 * var1 * p.dig_P6 + pyShl (var1 * p.dig_P5) 17 + pyShl p.dig_P4 35

/-- The pressure branch of `BME280.get_measure_results`: `None` when the
stage-1 divisor is zero, otherwise the compensated value divided by 25600
and rounded to two decimals. -/
def bmePressure (p : BMEParams) (t_fine p_raw : Int) : Option ℚ :=
  if bmePVar1 p t_fine ≠ 0 then
    let p_int := 1048576 - p_raw
    let p_int2 :=
      Int.fdiv ((pyShl p_int 31 - bmePVar2 p t_fine) * 3125) (bmePVar1 p t_fine)
    let v1 := pyShr (p.dig_P9 * pyShr p_int2 13 * pyShr p_int2 13) 25
    let v2 := pyShr (p.dig_P8 * p_int2) 19
    let p_int3 := pyShr (p_int2 + v1 + v2) 8 + pyShl p.dig_P7 4
    some (pyRound2 ((p_int3 : ℚ) / 25600))
  else none

/-- The 6-tuple returned by `BME280.get_measure_results`; `none` models
Python `None`. -/
structure BMEResult where
  t_raw : Option Int
  t_val : Option ℚ
  h_raw : Option Int
  h_val : Option ℚ
  p_raw : Option Int
  p_val : Option ℚ
deriving DecidableEq

/-- `BME280.get_measure_results(self)` on a register-file snapshot, paired
with the list of `(register, length)` reads the call performs. -/
def bme_get_measure_results (p : BMEParams) (regs : Nat → Nat) :
    BMEResult × List (Nat × Nat) :=
  if bmeReadBE regs 0xF3 1 = 0 then
    let t_raw : Int := (bmeReadBE regs 0xFA 3) >>> 4
    let t_fine := bmeTFine p t_raw
    let t_int := pyShr (t_fine * 5 + 128) 8
    let t_float := pyRound2 ((t_int : ℚ) / 100)
    let h_raw : Int := bmeReadBE regs 0xFD 2
    let h_float := bmeHumidity p t_fine h_raw
    let p_raw : Int := (bmeReadBE regs 0xF7 3) >>> 4
    let p_float := bmePressure p t_fine p_raw
    (⟨some t_raw, some t_float, some h_raw, h_float, some p_raw, p_float⟩,
     [(0xF3, 1), (0xFA, 3), (0xFD, 2), (0xF7, 3)])
  else
    (⟨none, none, none, none, none, none⟩, [(0xF3, 1)])

/-! ## BME280 guard conditions (claim C1) -/

/-- Claim C1: with status `0`, a zero stage-1 pressure divisor makes only the
pressure physical value unavailable; a humidity intermediate outside
`[0, 419430400]` makes only the humidity physical value unavailable; inside
the range the humidity value is `round((var1 >> 12) / 1024, 2)`, and at the
boundary `419430400` itself it is the available value `100`. -/
theorem bme_guarded_unavailability (p : BMEParams) (regs : Nat → Nat)
    (tf hr : Int) (hst : bmeReadBE regs 0xF3 1 = 0)
    (htf : tf = bmeTFine p ((bmeReadBE regs 0xFA 3) >>> 4 : Nat))
    (hhr : hr = ((bmeReadBE regs 0xFD 2 : Nat) : Int)) :
    (bmePVar1 p tf = 0 →
      (bme_get_measure_results p regs).1.p_val = none ∧
      (bme_get_measure_results p regs).1.t_raw.isSome = true ∧
      (bme_get_measure_results p regs).1.t_val.isSome = true ∧
      (bme_get_measure_results p regs).1.h_raw.isSome = true ∧
      (bme_get_measure_results p regs).1.p_raw.isSome = true) ∧
    (bmeHVar1 p tf hr < 0 ∨ 419430400 < bmeHVar1 p tf hr →
      (bme_get_measure_results p regs).1.h_val = none ∧
      (bme_get_measure_results p regs).1.t_raw.isSome = true ∧
      (bme_get_measure_results p regs).1.t_val.isSome = true ∧
      (bme_get_measure_results p regs).1.h_raw.isSome = true ∧
      (bme_get_measure_results p regs).1.p_raw.isSome = true) ∧
    (0 ≤ bmeHVar1 p tf hr → bmeHVar1 p tf hr ≤ 419430400 →
      (bme_get_measure_results p regs).1.h_val =
        some (pyRound2 ((pyShr (bmeHVar1 p tf hr) 12 : ℚ) / 1024))) ∧
    (bmeHVar1 p tf hr = 419430400 →
      (bme_get_measure_results p regs).1.h_val = some 100) := by
  subst htf hhr
  unfold bme_get_measure_results
  rw [if_pos hst]
  refine ⟨?_, ?_, ?_, ?_⟩
  · intro h0
    refine ⟨?_, rfl, rfl, rfl, rfl⟩
    show bmePressure _ _ _ = none
    unfold bmePressure
    rw [if_neg (fun hne => hne h0)]
  · intro hout
    refine ⟨?_, rfl, rfl, rfl, rfl⟩
    show bmeHumidity _ _ _ = none
    unfold bmeHumidity
    rw [if_pos hout]
  · intro h0 h1
    show bmeHumidity _ _ _ = _
    unfold bmeHumidity
    rw [if_neg (by omega)]
  · intro hb
    show bmeHumidity _ _ _ = _
    unfold bmeHumidity
    rw [hb, if_neg (by norm_num),
      show pyShr 419430400 12 = (102400 : Int) from by decide,
      show ((102400 : Int) : ℚ) / 1024 = ((100 : ℤ) : ℚ) by norm_num,
      pyRound2_intCast]
    norm_num

/-- All-zero calibration attributes (in particular `dig_P1 = 0`, so the
stage-1 pressure divisor vanishes). -/
def bmeParamsZero : BMEParams := ⟨0, 0, 0, 0, 0, 0, 0, 0, 0, 0, 0, 0, 0, 0, 0, 0, 0, 0⟩

/-- All-zero BME280 register file (status reads as `0`). -/
def bmeRegsZero : Nat → Nat := fun _ => 0

/-- Calibration attributes making the humidity intermediate overshoot the
`419430400` bound on the register file `bmeRegsHum`. -/
def bmeParamsOver : BMEParams := ⟨0, 0, 0, 0, 0, 0, 0, 0, 0, 0, 0, 0, 255, 256, 0, 0, 0, 0⟩

/-- Register file whose raw humidity registers read `0xFFFF`. -/
def bmeRegsHum : Nat → Nat := fun a =>
  if a = 0xFD then 0xFF else if a = 0xFE then 0xFF else 0

/-- Calibration attributes landing the humidity intermediate exactly on the
boundary `419430400` on the register file `bmeRegsBound`. -/
def bmeParamsBound : BMEParams := ⟨0, 0, 0, 0, 0, 0, 0, 0, 0, 0, 0, 0, 0, 256, 0, 0, 0, 0⟩

/-- Register file whose raw humidity registers read `0x63FF` (25599). -/
def bmeRegsBound : Nat → Nat := fun a =>
  if a = 0xFD then 0x63 else if a = 0xFE then 0xFF else 0

/-- Witness for C1: a zero pressure divisor input, an out-of-range humidity
input, and an exact-boundary humidity input. -/
theorem bme_guarded_unavailability_witness :
    (bmePVar1 bmeParamsZero
        (bmeTFine bmeParamsZero ((bmeReadBE bmeRegsZero 0xFA 3) >>> 4 : Nat)) = 0 ∧
      (bme_get_measure_results bmeParamsZero bmeRegsZero).1.p_val = none ∧
      (bme_get_measure_results bmeParamsZero bmeRegsZero).1.t_val.isSome = true) ∧
    (419430400 <
        bmeHVar1 bmeParamsOver
          (bmeTFine bmeParamsOver ((bmeReadBE bmeRegsHum 0xFA 3) >>> 4 : Nat))
          ((bmeReadBE bmeRegsHum 0xFD 2 : Nat) : Int) ∧
      (bme_get_measure_results bmeParamsOver bmeRegsHum).1.h_val = none ∧
      (bme_get_measure_results bmeParamsOver bmeRegsHum).1.h_raw.isSome = true) ∧
    (bmeHVar1 bmeParamsBound
        (bmeTFine bmeParamsBound ((bmeReadBE bmeRegsBound 0xFA 3) >>> 4 : Nat))
        ((bmeReadBE bmeRegsBound 0xFD 2 : Nat) : Int) = 419430400 ∧
      (bme_get_measure_results bmeParamsBound bmeRegsBound).1.h_val = some 100) := by
  have h0 := bme_guarded_unavailability bmeParamsZero bmeRegsZero _ _ rfl rfl rfl
  have h1 := bme_guarded_unavailability bmeParamsOver bmeRegsHum _ _ rfl rfl rfl
  have h2 := bme_guarded_unavailability bmeParamsBound bmeRegsBound _ _ rfl rfl rfl
  have e0 : bmePVar1 bmeParamsZero
      (bmeTFine bmeParamsZero ((bmeReadBE bmeRegsZero 0xFA 3) >>> 4 : Nat)) = 0 := by
    decide
  have e1 : 419430400 <
      bmeHVar1 bmeParamsOver
        (bmeTFine bmeParamsOver ((bmeReadBE bmeRegsHum 0xFA 3) >>> 4 : Nat))
        ((bmeReadBE bmeRegsHum 0xFD 2 : Nat) : Int) := by decide
  have e2 : bmeHVar1 bmeParamsBound
      (bmeTFine bmeParamsBound ((bmeReadBE bmeRegsBound 0xFA 3) >>> 4 : Nat))
      ((bmeReadBE bmeRegsBound 0xFD 2 : Nat) : Int) = 419430400 := by decide
  obtain ⟨c0, -, -, -⟩ := h0
  obtain ⟨-, c1, -, -⟩ := h1
  obtain ⟨-, -, -, c2⟩ := h2
  exact ⟨⟨e0, (c0 e0).1, (c0 e0).2.2.1⟩,
    ⟨e1, (c1 (Or.inr e1)).1, (c1 (Or.inr e1)).2.2.2.1⟩,
    ⟨e2, c2 e2⟩⟩

/-! ## BME280 calibration decoding (claim C2) -/

/-- Signed 16-bit two's-complement reinterpretation of an unsigned 16-bit
value, following the claim's words (for comparison with the code). -/
def specSigned16 (x : Nat) : Int := if x < 0x8000 then x else (x : Int) - 0x10000

/-- The claim's (datasheet) nibble packing of `dig_H5`:
`(reg 0xE6 << 4) | (reg 0xE5 >> 4)`, for comparison with the code. -/
def specH5 (e5 e6 : Nat) : Nat := (e6 <<< 4) ||| (e5 >>> 4)

/-- Register file with calibration bytes `0x8A = 0x8B = 0xFF`,
`0xE5 = 0x12`, `0xE6 = 0x34` and all other registers zero. -/
def bmeRegsCal : Nat → Nat := fun a =>
  if a = 0x8A then 0xFF else if a = 0x8B then 0xFF
  else if a = 0xE5 then 0x12 else if a = 0xE6 then 0x34 else 0

/-- Claim C2 fails on the code: `_get_compensation_params` stores `dig_T2`
as the unsigned value `65535` where the claimed signed 16-bit decoding of
the same bytes is `-1`, and packs `dig_H5` as `(0xE5 >> 4) << 8 | 0xE6`
(`308` here) where the claimed packing `(0xE6 << 4) | (0xE5 >> 4)` gives
`833`. -/
theorem bme_compensation_params_not_signed :
    (bme_get_compensation_params bmeRegsCal).dig_T2 = 65535 ∧
    specSigned16 (bmeReadLE bmeRegsCal 0x8A 2) = -1 ∧
    (bme_get_compensation_params bmeRegsCal).dig_T2 ≠
      specSigned16 (bmeReadLE bmeRegsCal 0x8A 2) ∧
    (bme_get_compensation_params bmeRegsCal).dig_H5 = 308 ∧
    (specH5 (bmeRegsCal 0xE5) (bmeRegsCal 0xE6) : Int) = 833 ∧
    (bme_get_compensation_params bmeRegsCal).dig_H5 ≠
      (specH5 (bmeRegsCal 0xE5) (bmeRegsCal 0xE6) : Int) := by
  refine ⟨by decide, by decide, by decide, by decide, by decide, by decide⟩

/-! ## DHT driver (`dht.py`) -/

/-- The 5-tuple returned by `DHT.get_measure_results`. -/
structure DHTResult where
  t_raw : Int
  t_val : ℚ
  h_raw : Int
  h_val : ℚ
  valid : Bool
deriving DecidableEq

/-- `DHT.get_measure_results(self)` for a driver constructed with variant
code `dht` and a 5-byte transfer buffer `b0..b4`.  The unknown-variant
branch leaves `t_val`/`h_val` as `None`, so the final
`round(t_val, 2)` raises `TypeError`; this is modelled as `none`. -/
def dht_get_measure_results (dht b0 b1 b2 b3 b4 : Nat) : Option DHTResult :=
  let h_raw : Nat := fromBytesLE [b0, b1]
  let t_raw : Nat := fromBytesLE [b2, b3]
  let checksum : Nat := (b0 + b1 + b2 + b3) &&& 0xFF
  if dht = 0x11 then
    some ⟨t_raw, pyRound2 ((t_raw &&& 0x7FFF : Nat) : ℚ), h_raw,
      pyRound2 (h_raw : ℚ), checksum == b4⟩
  else if dht = 0x22 then
    let h_val : ℚ := (h_raw : ℚ) / 10
    let t_val : ℚ := ((t_raw &&& 0x7FFF : Nat) : ℚ) / 10
    if t_raw &&& 8000 ≠ 0 then
      some ⟨-((t_raw &&& 0x7FFF : Nat) : Int), pyRound2 (-t_val), h_raw,
        pyRound2 h_val, checksum == b4⟩
    else
      some ⟨t_raw, pyRound2 t_val, h_raw, pyRound2 h_val, checksum == b4⟩
  else
    none

theorem fromBytesLE_two (a b : Nat) : fromBytesLE [a, b] = a + 256 * b := by
  simp only [fromBytesLE, List.foldr_cons, List.foldr_nil]
  ring

theorem pyRound2_natCast (n : ℕ) : pyRound2 (n : ℚ) = n := by
  have h := pyRound2_intCast (n : ℤ)
  push_cast at h ⊢
  exact h

theorem pyRound2_natCast_div_ten (n : ℕ) :
    pyRound2 ((n : ℚ) / 10) = (n : ℚ) / 10 := by
  have h := pyRound2_div_ten (n : ℤ)
  push_cast at h ⊢
  exact h

theorem pyRound2_neg_natCast_div_ten (n : ℕ) :
    pyRound2 (-((n : ℚ) / 10)) = -((n : ℚ) / 10) := by
  have h := pyRound2_div_ten (-(n : ℤ))
  push_cast at h ⊢
  rw [neg_div] at h
  exact h

/-- Claim C5: variant `0x11` returns the raw humidity code unchanged and the
low 15 bits of the temperature code with no scaling or sign handling;
variant `0x22` divides by 10 and negates the temperature exactly when
`raw & 8000` (the decimal literal) is non-zero. -/
theorem dht_variant_decoding (dht b0 b1 b2 b3 b4 : Nat) :
    (dht = 0x11 →
      dht_get_measure_results dht b0 b1 b2 b3 b4 =
        some ⟨((b2 + 256 * b3 : Nat) : Int),
          (((b2 + 256 * b3) &&& 0x7FFF : Nat) : ℚ),
          ((b0 + 256 * b1 : Nat) : Int),
          ((b0 + 256 * b1 : Nat) : ℚ),
          (b0 + b1 + b2 + b3) % 256 == b4⟩) ∧
    (dht = 0x22 →
      dht_get_measure_results dht b0 b1 b2 b3 b4 =
        some ⟨(if (b2 + 256 * b3) &&& 8000 ≠ 0
            then -(((b2 + 256 * b3) &&& 0x7FFF : Nat) : Int)
            else ((b2 + 256 * b3 : Nat) : Int)),
          (if (b2 + 256 * b3) &&& 8000 ≠ 0
            then -((((b2 + 256 * b3) &&& 0x7FFF : Nat) : ℚ) / 10)
            else (((b2 + 256 * b3) &&& 0x7FFF : Nat) : ℚ) / 10),
          ((b0 + 256 * b1 : Nat) : Int),
          ((b0 + 256 * b1 : Nat) : ℚ) / 10,
          (b0 + b1 + b2 + b3) % 256 == b4⟩) := by
  constructor
  · intro h
    subst h
    unfold dht_get_measure_results
    rw [if_pos rfl]
    rw [fromBytesLE_two, fromBytesLE_two, and255_eq_mod, pyRound2_natCast,
      pyRound2_natCast]
  · intro h
    subst h
    unfold dht_get_measure_results
    rw [if_neg (by norm_num), if_pos rfl]
    simp only [fromBytesLE_two, and255_eq_mod]
    split_ifs with hc
    · rw [pyRound2_neg_natCast_div_ten, pyRound2_natCast_div_ten]
    · rw [pyRound2_natCast_div_ten, pyRound2_natCast_div_ten]

/-- Witness for C5 at concrete buffers for both variants. -/
theorem dht_variant_decoding_witness :
    dht_get_measure_results 0x11 1 2 3 4 10 =
      some ⟨((3 + 256 * 4 : Nat) : Int),
        (((3 + 256 * 4) &&& 0x7FFF : Nat) : ℚ),
        ((1 + 256 * 2 : Nat) : Int),
        ((1 + 256 * 2 : Nat) : ℚ),
        (1 + 2 + 3 + 4) % 256 == 10⟩ ∧
    dht_get_measure_results 0x22 1 2 3 0x80 10 =
      some ⟨(if (3 + 256 * 0x80) &&& 8000 ≠ 0
          then -(((3 + 256 * 0x80) &&& 0x7FFF : Nat) : Int)
          else ((3 + 256 * 0x80 : Nat) : Int)),
        (if (3 + 256 * 0x80) &&& 8000 ≠ 0
          then -((((3 + 256 * 0x80) &&& 0x7FFF : Nat) : ℚ) / 10)
          else (((3 + 256 * 0x80) &&& 0x7FFF : Nat) : ℚ) / 10),
        ((1 + 256 * 2 : Nat) : Int),
        ((1 + 256 * 2 : Nat) : ℚ) / 10,
        (1 + 2 + 3 + 0x80) % 256 == 10⟩ :=
  ⟨(dht_variant_decoding 0x11 1 2 3 4 10).1 rfl,
   (dht_variant_decoding 0x22 1 2 3 0x80 10).2 rfl⟩

/-- Claim C6: for the two known variants the call always yields a full
result tuple (never raises), whose validity flag is true exactly when the
sum of the four data bytes modulo 256 equals byte 4; on mismatch the
decoded values are still returned. -/
theorem dht_always_returns_with_checksum_flag (dht b0 b1 b2 b3 b4 : Nat)
    (hv : dht = 0x11 ∨ dht = 0x22) :
    (dht_get_measure_results dht b0 b1 b2 b3 b4).isSome = true ∧
    ∀ r, dht_get_measure_results dht b0 b1 b2 b3 b4 = some r →
      (r.valid = true ↔ (b0 + b1 + b2 + b3) % 256 = b4) := by
  rcases hv with h | h <;> subst h
  · unfold dht_get_measure_results
    rw [if_pos rfl]
    refine ⟨rfl, ?_⟩
    intro r hr
    obtain rfl := (Option.some.inj hr).symm
    simp [and255_eq_mod]
  · unfold dht_get_measure_results
    rw [if_neg (by norm_num), if_pos rfl]
    constructor
    · split_ifs <;> rfl
    · intro r hr
      split_ifs at hr <;>
      · obtain rfl := (Option.some.inj hr).symm
        simp [and255_eq_mod]

/-- Witness for C6 at a buffer whose checksum byte is wrong (the decoded
tuple is still produced, flagged invalid). -/
theorem dht_always_returns_with_checksum_flag_witness :
    ((0x22 : Nat) = 0x11 ∨ (0x22 : Nat) = 0x22) ∧
    ((dht_get_measure_results 0x22 1 2 3 4 99).isSome = true ∧
     ∀ r, dht_get_measure_results 0x22 1 2 3 4 99 = some r →
       (r.valid = true ↔ (1 + 2 + 3 + 4) % 256 = 99)) :=
  ⟨Or.inr rfl,
   dht_always_returns_with_checksum_flag 0x22 1 2 3 4 99 (Or.inr rfl)⟩

/-- Claim C10: with a variant code that is neither `0x11` nor `0x22` the
call raises (`round` applied to `None`) for every buffer contents. -/
theorem dht_unknown_variant_raises (dht b0 b1 b2 b3 b4 : Nat)
    (h11 : dht ≠ 0x11) (h22 : dht ≠ 0x22) :
    dht_get_measure_results dht b0 b1 b2 b3 b4 = none := by
  unfold dht_get_measure_results
  rw [if_neg h11, if_neg h22]

/-- Witness for C10 at variant code `0x33`. -/
theorem dht_unknown_variant_raises_witness :
    (0x33 : Nat) ≠ 0x11 ∧ (0x33 : Nat) ≠ 0x22 ∧
    dht_get_measure_results 0x33 0 0 0 0 0 = none :=
  ⟨by decide, by decide,
   dht_unknown_variant_raises 0x33 0 0 0 0 0 (by decide) (by decide)⟩

/-! ## TSL2591 driver (`tsl2591.py`) -/

/-- Register constants of the `TSL2591` class. -/
def tslENABLE : Nat := 0x00

def tslSTATUS : Nat := 0x13

def tslC0DATA : Nat := 0x14

def tslC1DATA : Nat := 0x16

/-- The command byte `(0xA0 | addr) & 0xFF` used by `_read` and `_write`. -/
def tslCmd (addr : Nat) : Nat := (0xA0 ||| addr) &&& 0xFF

/-- `TSL2591._read(addr, len)`: read `len` consecutive bytes at the command
address and assemble them little-endian. -/
def tslRead (mem : Nat → Nat) (addr len : Nat) : Nat :=
  fromBytesLE ((List.range len).map fun i => mem (tslCmd addr + i))

/-- `TSL2591._write(addr, data)`: store the byte at the command address. -/
def tslWrite (mem : Nat → Nat) (addr data : Nat) : Nat → Nat :=
  fun a => if a = tslCmd addr then data else mem a

/-- `TSL2591.get_measure_results(self)` on a register-file snapshot,
returning the result pair and the register file after the call (the
successful branch clears the ALS-enable bit). -/
def tsl_get_measure_results (mem : Nat → Nat) :
    (Option Int × Option Int) × (Nat → Nat) :=
  if tslRead mem tslENABLE 1 &&& 0x02 ≠ 0 then
    if tslRead mem tslSTATUS 1 &&& 0x01 ≠ 0 then
      let full_raw := tslRead mem tslC0DATA 2
      let ir_raw := tslRead mem tslC1DATA 2
      let enable := tslRead mem tslENABLE 1
      ((some full_raw, some ir_raw), tslWrite mem tslENABLE (enable &&& 0xFD))
    else ((none, none), mem)
  else ((some (-1), some (-1)), mem)

theorem tslRead_one (mem : Nat → Nat) (addr : Nat) :
    tslRead mem addr 1 = mem (tslCmd addr) := by
  rw [tslRead, show List.range 1 = [0] from rfl]
  simp [fromBytesLE]

theorem tslRead_two (mem : Nat → Nat) (addr : Nat) :
    tslRead mem addr 2 = mem (tslCmd addr) + 256 * mem (tslCmd addr + 1) := by
  rw [tslRead, show List.range 2 = [0, 1] from rfl]
  simp [fromBytesLE]

/-- Claim C7: ALS-enable bit clear gives the sentinel pair `(-1, -1)`;
enable set but ready bit clear gives `(None, None)`; both set gives the two
16-bit little-endian channel readings. -/
theorem tsl_three_outcomes (mem : Nat → Nat) :
    (tslRead mem tslENABLE 1 &&& 0x02 = 0 →
      (tsl_get_measure_results mem).1 = (some (-1), some (-1))) ∧
    (tslRead mem tslENABLE 1 &&& 0x02 ≠ 0 →
      tslRead mem tslSTATUS 1 &&& 0x01 = 0 →
      (tsl_get_measure_results mem).1 = (none, none)) ∧
    (tslRead mem tslENABLE 1 &&& 0x02 ≠ 0 →
      tslRead mem tslSTATUS 1 &&& 0x01 ≠ 0 →
      (tsl_get_measure_results mem).1 =
        (some ((mem 0xB4 + 256 * mem 0xB5 : Nat) : Int),
         some ((mem 0xB6 + 256 * mem 0xB7 : Nat) : Int))) := by
  refine ⟨?_, ?_, ?_⟩
  · intro h
    unfold tsl_get_measure_results
    rw [if_neg (fun hc => hc h)]
  · intro hen hst
    unfold tsl_get_measure_results
    rw [if_pos hen, if_neg (fun hc => hc hst)]
  · intro hen hst
    unfold tsl_get_measure_results
    rw [if_pos hen, if_pos hst]
    show ((some ((tslRead mem tslC0DATA 2 : Nat) : Int),
        some ((tslRead mem tslC1DATA 2 : Nat) : Int)) : Option Int × Option Int) = _
    rw [tslRead_two, tslRead_two, show tslCmd tslC0DATA = 0xB4 from by decide,
      show tslCmd tslC1DATA = 0xB6 from by decide]

/-- Register file of a TSL2591 that was never started (powered on only:
enable register `0x01`). -/
def tslMemIdle : Nat → Nat := fun a => if a = 0xA0 then 0x01 else 0

/-- Register file of a started TSL2591 that is still converting
(enable `0x03`, status `0x00`). -/
def tslMemBusy : Nat → Nat := fun a => if a = 0xA0 then 0x03 else 0

/-- Register file of a started TSL2591 with a completed conversion and
channel data `0x1234` / `0x0056`. -/
def tslMemReady : Nat → Nat := fun a =>
  if a = 0xA0 then 0x03 else if a = 0xB3 then 0x01
  else if a = 0xB4 then 0x34 else if a = 0xB5 then 0x12
  else if a = 0xB6 then 0x56 else 0

/-- Witness for C7 at the three concrete register files. -/
theorem tsl_three_outcomes_witness :
    (tslRead tslMemIdle tslENABLE 1 &&& 0x02 = 0 ∧
      (tsl_get_measure_results tslMemIdle).1 = (some (-1), some (-1))) ∧
    (tslRead tslMemBusy tslENABLE 1 &&& 0x02 ≠ 0 ∧
      tslRead tslMemBusy tslSTATUS 1 &&& 0x01 = 0 ∧
      (tsl_get_measure_results tslMemBusy).1 = (none, none)) ∧
    (tslRead tslMemReady tslENABLE 1 &&& 0x02 ≠ 0 ∧
      tslRead tslMemReady tslSTATUS 1 &&& 0x01 ≠ 0 ∧
      (tsl_get_measure_results tslMemReady).1 =
        (some ((tslMemReady 0xB4 + 256 * tslMemReady 0xB5 : Nat) : Int),
         some ((tslMemReady 0xB6 + 256 * tslMemReady 0xB7 : Nat) : Int))) :=
  ⟨⟨by decide, (tsl_three_outcomes tslMemIdle).1 (by decide)⟩,
   ⟨by decide, by decide,
    (tsl_three_outcomes tslMemBusy).2.1 (by decide) (by decide)⟩,
   ⟨by decide, by decide,
    (tsl_three_outcomes tslMemReady).2.2 (by decide) (by decide)⟩⟩

/-- Claim C8: after a successful read the ALS-enable bit (bit 1) of the
enable register is clear, every other bit of the enable register is
unchanged, and no other register is touched. -/
theorem tsl_auto_disable_preserves_bits (mem : Nat → Nat)
    (hen : tslRead mem tslENABLE 1 &&& 0x02 ≠ 0)
    (hst : tslRead mem tslSTATUS 1 &&& 0x01 ≠ 0)
    (hbyte : mem 0xA0 < 256) :
    ((tsl_get_measure_results mem).2 0xA0).testBit 1 = false ∧
    (∀ i, i ≠ 1 →
      ((tsl_get_measure_results mem).2 0xA0).testBit i =
        (mem 0xA0).testBit i) ∧
    (∀ a, a ≠ 0xA0 → (tsl_get_measure_results mem).2 a = mem a) := by
  have hcmd : tslCmd tslENABLE = 0xA0 := by decide
  have hval : ∀ a, (tsl_get_measure_results mem).2 a =
      if a = 0xA0 then mem 0xA0 &&& 0xFD else mem a := by
    intro a
    unfold tsl_get_measure_results
    rw [if_pos hen, if_pos hst]
    show tslWrite mem tslENABLE (tslRead mem tslENABLE 1 &&& 0xFD) a = _
    rw [tslWrite, tslRead_one, hcmd]
  refine ⟨?_, ?_, ?_⟩
  · rw [hval 0xA0, if_pos rfl, Nat.testBit_land,
      show (0xFD : Nat).testBit 1 = false from by decide, Bool.and_false]
  · intro i hne
    rw [hval 0xA0, if_pos rfl]
    rcases lt_or_ge i 8 with h8 | h8
    · have hfd : ∀ j, j < 8 → j ≠ 1 → (0xFD : Nat).testBit j = true := by
        decide
      rw [Nat.testBit_land, hfd i h8 hne, Bool.and_true]
    · have h256 : (256 : Nat) ≤ 2 ^ i := by
        calc (256 : Nat) = 2 ^ 8 := by norm_num
        _ ≤ 2 ^ i := Nat.pow_le_pow_right (by norm_num) h8
      rw [Nat.testBit_lt_two_pow
          (lt_of_le_of_lt Nat.and_le_left (lt_of_lt_of_le hbyte h256)),
        Nat.testBit_lt_two_pow (lt_of_lt_of_le hbyte h256)]
  · intro a ha
    rw [hval a, if_neg ha]

/-- Witness for C8 at the ready register file `tslMemReady`. -/
theorem tsl_auto_disable_preserves_bits_witness :
    (tslRead tslMemReady tslENABLE 1 &&& 0x02 ≠ 0 ∧
      tslRead tslMemReady tslSTATUS 1 &&& 0x01 ≠ 0 ∧
      tslMemReady 0xA0 < 256) ∧
    (((tsl_get_measure_results tslMemReady).2 0xA0).testBit 1 = false ∧
     (∀ i, i ≠ 1 →
       ((tsl_get_measure_results tslMemReady).2 0xA0).testBit i =
         (tslMemReady 0xA0).testBit i) ∧
     (∀ a, a ≠ 0xA0 →
       (tsl_get_measure_results tslMemReady).2 a = tslMemReady a)) :=
  ⟨⟨by decide, by decide, by decide⟩,
   tsl_auto_disable_preserves_bits tslMemReady (by decide) (by decide)
     (by decide)⟩

/-! ## Busy polling (claim C9) -/

/-- Claim C9: while a device reports busy (AHT status bit 7 set, BME280
status register non-zero) `get_measure_results` returns the all-`None`
tuple, performs only the status transaction (no data-register read), and
every busy poll returns the identical result. -/
theorem busy_polls_all_unavailable (s1 s2 : AHTState) (p1 p2 : BMEParams)
    (r1 r2 : Nat → Nat)
    (ha1 : s1.status &&& 0x80 ≠ 0) (ha2 : s2.status &&& 0x80 ≠ 0)
    (hb1 : bmeReadBE r1 0xF3 1 ≠ 0) (hb2 : bmeReadBE r2 0xF3 1 ≠ 0) :
    aht_get_measure_results s1 =
      (⟨none, none, none, none, none⟩, [AHTTx.wr [0x71], AHTTx.rd 1]) ∧
    aht_get_measure_results s1 = aht_get_measure_results s2 ∧
    bme_get_measure_results p1 r1 =
      (⟨none, none, none, none, none, none⟩, [(0xF3, 1)]) ∧
    bme_get_measure_results p1 r1 = bme_get_measure_results p2 r2 := by
  have ha : ∀ s : AHTState, s.status &&& 0x80 ≠ 0 →
      aht_get_measure_results s =
        (⟨none, none, none, none, none⟩, [AHTTx.wr [0x71], AHTTx.rd 1]) := by
    intro s h
    unfold aht_get_measure_results
    rw [if_pos h]
  have hb : ∀ (p : BMEParams) (r : Nat → Nat), bmeReadBE r 0xF3 1 ≠ 0 →
      bme_get_measure_results p r =
        (⟨none, none, none, none, none, none⟩, [(0xF3, 1)]) := by
    intro p r h
    unfold bme_get_measure_results
    rw [if_neg h]
  exact ⟨ha s1 ha1, (ha s1 ha1).trans (ha s2 ha2).symm,
    hb p1 r1 hb1, (hb p1 r1 hb1).trans (hb p2 r2 hb2).symm⟩

/-- AHT snapshot with the busy bit set. -/
def ahtSBusy : AHTState := ⟨0x80, fun _ => 0⟩

/-- Second AHT busy snapshot (different status byte, still busy). -/
def ahtSBusy2 : AHTState := ⟨0xFF, fun _ => 7⟩

/-- BME280 register file reporting a busy status. -/
def bmeRegsBusy : Nat → Nat := fun _ => 9

/-- Witness for C9 at concrete busy snapshots of both drivers. -/
theorem busy_polls_all_unavailable_witness :
    (ahtSBusy.status &&& 0x80 ≠ 0 ∧ ahtSBusy2.status &&& 0x80 ≠ 0 ∧
      bmeReadBE bmeRegsBusy 0xF3 1 ≠ 0) ∧
    (aht_get_measure_results ahtSBusy =
        (⟨none, none, none, none, none⟩, [AHTTx.wr [0x71], AHTTx.rd 1]) ∧
      aht_get_measure_results ahtSBusy = aht_get_measure_results ahtSBusy2 ∧
      bme_get_measure_results bmeParamsZero bmeRegsBusy =
        (⟨none, none, none, none, none, none⟩, [(0xF3, 1)]) ∧
      bme_get_measure_results bmeParamsZero bmeRegsBusy =
        bme_get_measure_results bmeParamsOver bmeRegsBusy) := by
  have h := busy_polls_all_unavailable ahtSBusy ahtSBusy2 bmeParamsZero
    bmeParamsOver bmeRegsBusy bmeRegsBusy (by decide) (by decide) (by decide)
    (by decide)
  exact ⟨⟨by decide, by decide, by decide⟩, h⟩
